import Mathlib

/-!
Formal model of the decision-and-session engine of `forex_signal_bot.py`:
the instrument catalog, the market clock gate, the signal coercion cascade,
and the per-user session state machine, embedded shallowly in Lean.

Conventions of the embedding:
* Python dict reads that may raise are modelled as `Except Unit` values
  carried by the report structure; `Except.error ()` stands for a raised
  exception, `Except.ok none` for a `.get` that returned `None`.
* The global `user_data` dict is modelled as a function
  `Nat → Option UserSession`; handler functions return the outcome paired
  with the (possibly updated) store.
* `random.choice(["BUY", "SELL"])` is modelled by an explicit `entropy`
  argument selecting between the two.
* `datetime.now(tz)` is modelled by passing the Moscow-time weekday, hour
  and minute as arguments to `is_market_closed`.
-/

namespace ForexSignalBot

/-- The twenty standard currency pairs (`FOREX_PAIRS` in the source). -/
def FOREX_PAIRS : List String :=
  ["EUR/USD", "GBP/USD", "USD/JPY", "USD/CHF", "AUD/USD",
   "NZD/USD", "USD/CAD", "EUR/GBP", "EUR/JPY", "GBP/JPY",
   "AUD/JPY", "CHF/JPY", "EUR/AUD", "EUR/CAD", "GBP/AUD",
   "GBP/CAD", "AUD/CAD", "NZD/JPY", "EUR/NZD", "GBP/NZD"]

/-- OTC variants: each standard pair with the marker appended
(`OTC_PAIRS = [p + " OTC" for p in FOREX_PAIRS]`). -/
def OTC_PAIRS : List String := FOREX_PAIRS.map (fun p => p ++ " OTC")

/-- Timeframe labels valid for standard pairs (`TIMEFRAMES_FOREX`). -/
def TIMEFRAMES_FOREX : List String := ["1m", "5m", "15m", "30m", "1h"]

/-- Timeframe labels valid for OTC pairs (`TIMEFRAMES_OTC`). -/
def TIMEFRAMES_OTC : List String :=
  ["5s", "10s", "30s", "1m", "5m", "15m", "30m", "1h"]

/-- The TradingView intervals the bot can request
(members of `tradingview_ta.Interval` used by `TF_MAP`). -/
inductive Interval where
  | oneMinute
  | fiveMinutes
  | fifteenMinutes
  | thirtyMinutes
  | oneHour
deriving DecidableEq

/-- The timeframe-to-interval dict `TF_MAP`, as an association list. -/
def TF_MAP : List (String × Interval) :=
  [("5s", Interval.oneMinute),
   ("10s", Interval.oneMinute),
   ("30s", Interval.oneMinute),
   ("1m", Interval.oneMinute),
   ("5m", Interval.fiveMinutes),
   ("15m", Interval.fifteenMinutes),
   ("30m", Interval.thirtyMinutes),
   ("1h", Interval.oneHour)]

/-- `is_market_closed`, as a pure function of the Moscow-time weekday
(0 = Monday … 6 = Sunday), hour and minute produced by `datetime.now(tz)`.
Mirrors the source body: weekend test, then the nightly-window test. -/
def is_market_closed (weekday hour minute : Nat) : Bool :=
  if weekday = 5 ∨ weekday = 6 then true
  else if (hour = 22 ∧ 45 ≤ minute) ∨ hour < 2 then true
  else false

/-- `tv_symbol_from_pair`: strip the `" OTC"` marker, drop the slash. -/
def tv_symbol_from_pair (pair : String) : String :=
  ((pair.replace " OTC" "").replace "/" "")

/-- Model of the `tradingview_ta` analysis object, restricted to the four
reads `coerce_to_buy_sell` performs. Each field models one Python read
expression: `Except.error ()` if evaluating it raises, otherwise
`Except.ok` of the value it yields (`none` for `None`). -/
structure AnalysisReport where
  /-- `analysis.summary.get("RECOMMENDATION")` -/
  summary : Except Unit (Option String)
  /-- `analysis.moving_averages.get("RECOMMENDATION")` -/
  moving_averages : Except Unit (Option String)
  /-- `analysis.oscillators.get("RECOMMENDATION")` -/
  oscillators : Except Unit (Option String)
  /-- `str(v)` for each value `v` of `analysis.moving_averages.get("COMPUTE") or {}` -/
  compute : Except Unit (List String)

/-- Python `str.upper()` on the ASCII strings the feed produces,
as a computable map over the character list. -/
def py_upper (s : String) : String := ⟨s.data.map Char.toUpper⟩

/-- Python `s.startswith(p)`, as a computable list-prefix test. -/
def py_startswith (s p : String) : Bool := p.data.isPrefixOf s.data

/-- The string a recommendation read is normalised to:
`(value or "").upper()`. -/
def rec_string (o : Option String) : String := py_upper (o.getD "")

/-- The stage-1 string: `(analysis.summary.get("RECOMMENDATION") or "").upper()`
computed under `try/except`, a raising read yielding `""`. -/
def summary_string (a : AnalysisReport) : String :=
  match a.summary with
  | Except.error _ => ""
  | Except.ok o => rec_string o

/-- Number of per-indicator votes whose text starts with `"BUY"`
(case-insensitively): `sum(1 for v in ma_counts.values() if str(v).upper().startswith("BUY"))`. -/
def buy_cnt (votes : List String) : Nat :=
  (votes.filter (fun v => py_startswith (py_upper v) "BUY")).length

/-- Number of per-indicator votes whose text starts with `"SELL"`. -/
def sell_cnt (votes : List String) : Nat :=
  (votes.filter (fun v => py_startswith (py_upper v) "SELL")).length

/-- `coerce_to_buy_sell`. Stage 1 (overall recommendation) is wrapped in
`try/except`, so a raising read falls through as `""`. Stages 2 and 3
(`moving_averages` / `oscillators` recommendation reads) are NOT wrapped:
a raising read propagates, modelled by returning `Except.error ()`.
Stage 4 (the vote tally) is wrapped again; a raising read falls through to
the stage-5 random fallback, modelled by the `entropy` argument. -/
def coerce_to_buy_sell (analysis : AnalysisReport) (entropy : Bool) :
    Except Unit String :=
  let summary : String := summary_string analysis
  if summary == "BUY" || summary == "STRONG_BUY" then Except.ok "BUY"
  else if summary == "SELL" || summary == "STRONG_SELL" then Except.ok "SELL"
  else
    match analysis.moving_averages with
    | Except.error e => Except.error e
    | Except.ok mo =>
      let ma_rec := rec_string mo
      if ma_rec == "BUY" || ma_rec == "STRONG_BUY" then Except.ok "BUY"
      else if ma_rec == "SELL" || ma_rec == "STRONG_SELL" then Except.ok "SELL"
      else
        match analysis.oscillators with
        | Except.error e => Except.error e
        | Except.ok oo =>
          let osc_rec := rec_string oo
          if osc_rec == "BUY" || osc_rec == "STRONG_BUY" then Except.ok "BUY"
          else if osc_rec == "SELL" || osc_rec == "STRONG_SELL" then Except.ok "SELL"
          else
            let tally : Option String :=
              match analysis.compute with
              | Except.error _ => none
              | Except.ok votes =>
                if buy_cnt votes > sell_cnt votes then some "BUY"
                else if sell_cnt votes > buy_cnt votes then some "SELL"
                else none
            match tally with
            | some s => Except.ok s
            | none => Except.ok (if entropy then "BUY" else "SELL")

/-- The pure prefix of `analyze_with_tradingview`: the `TA_Handler`
request it constructs from the chosen pair and timeframe (symbol
conversion and `TF_MAP.get(timeframe, Interval.INTERVAL_5_MINUTES)`).
The network call itself is the external adapter. -/
structure TARequest where
  symbol : String
  screener : String
  exchange : String
  interval : Interval
deriving DecidableEq

/-- Request construction inside `analyze_with_tradingview` (the `is_otc`
argument is accepted but unused by the source body). -/
def analyze_with_tradingview_request (pair timeframe : String) (is_otc : Bool) :
    TARequest :=
  { symbol := tv_symbol_from_pair pair
    screener := "forex"
    exchange := "FX_IDC"
    interval := (List.lookup timeframe TF_MAP).getD Interval.fiveMinutes }

/-- One entry of the `user_data` dict: `{"pair": …, "otc": …}`. -/
structure UserSession where
  pair : String
  otc : Bool
deriving DecidableEq

/-- The `user_data` dict, keyed by Telegram user id. -/
def SessionStore : Type := Nat → Option UserSession

/-- Outcome of the `pair_chosen` handler. -/
inductive PairOutcome where
  /-- the `else: return` branch — no reply, no mutation -/
  | ignored
  /-- pair accepted; the reply offers this timeframe keyboard -/
  | selected (pair : String) (timeframes : List String)
deriving DecidableEq

/-- The `pair_chosen` handler: writes the session on a catalog hit
(standard catalog checked first), silently returns otherwise. -/
def pair_chosen (store : SessionStore) (uid : Nat) (text : String) :
    PairOutcome × SessionStore :=
  if text ∈ FOREX_PAIRS then
    (PairOutcome.selected text TIMEFRAMES_FOREX,
     fun u => if u = uid then some ⟨text, false⟩ else store u)
  else if text ∈ OTC_PAIRS then
    (PairOutcome.selected text TIMEFRAMES_OTC,
     fun u => if u = uid then some ⟨text, true⟩ else store u)
  else
    (PairOutcome.ignored, store)

/-- Outcome of the `timeframe_chosen` handler. -/
inductive TfOutcome where
  /-- unknown timeframe label — silent return -/
  | ignored
  /-- `uid not in user_data` — guidance message sent -/
  | noSelection
  /-- non-OTC pair while `is_market_closed()` — market-closed message -/
  | marketClosed
  /-- `analyze_with_tradingview(pair, tf, is_otc)` is invoked -/
  | analysisRequested (pair : String) (tf : String) (is_otc : Bool)
deriving DecidableEq

/-- The `timeframe_chosen` handler up to the point where the external
analysis adapter is invoked. `market_closed_now` is the value
`is_market_closed()` would return at the time of the event. The handler
never mutates the store. -/
def timeframe_chosen (store : SessionStore) (uid : Nat) (tf : String)
    (market_closed_now : Bool) : TfOutcome × SessionStore :=
  if tf ∉ TIMEFRAMES_FOREX ++ TIMEFRAMES_OTC then
    (TfOutcome.ignored, store)
  else
    match store uid with
    | none => (TfOutcome.noSelection, store)
    | some s =>
      if ¬s.otc ∧ market_closed_now then (TfOutcome.marketClosed, store)
      else (TfOutcome.analysisRequested s.pair tf s.otc, store)

/-- The empty session store (fresh process, no selections yet). -/
def emptyStore : SessionStore := fun _ => none

/-- A store holding one non-OTC selection for user 1. -/
def storeEurUsd : SessionStore :=
  fun u => if u = 1 then some ⟨"EUR/USD", false⟩ else none

/-- A store holding one OTC selection for user 2. -/
def storeOtc : SessionStore :=
  fun u => if u = 2 then some ⟨"EUR/USD OTC", true⟩ else none

/-- C1: the claim asserts `coerce_to_buy_sell` never raises, treating an
exception in ANY stage's field reads as that stage being inconclusive.
This is false: the reads of the trend-following and oscillator
sub-recommendations (stages 2 and 3) are not wrapped in `try/except`, so a
report whose `moving_averages` read raises makes `coerce_to_buy_sell`
raise. Concretely, a report with a neutral overall read and a raising
`moving_averages` read produces an exception, not a BUY/SELL value. -/
theorem C1_counterexample :
    coerce_to_buy_sell
      { summary := Except.ok none, moving_averages := Except.error (),
        oscillators := Except.ok none, compute := Except.ok [] } true
      = Except.error () := by
  rfl

/-- C1 (amended): whenever the stage-2 and stage-3 reads
(`moving_averages` / `oscillators` recommendation) do not raise,
`coerce_to_buy_sell` returns a value in {BUY, SELL} and never raises;
exceptions in the stage-1 read and the stage-4 vote tally are treated as
inconclusive and the cascade falls through. -/
theorem C1_amended (a : AnalysisReport) (entropy : Bool) (mo oo : Option String)
    (hma : a.moving_averages = Except.ok mo)
    (hosc : a.oscillators = Except.ok oo) :
    coerce_to_buy_sell a entropy = Except.ok "BUY" ∨
    coerce_to_buy_sell a entropy = Except.ok "SELL" := by
  simp only [coerce_to_buy_sell, hma, hosc]
  split
  · left; rfl
  split
  · right; rfl
  split
  · left; rfl
  split
  · right; rfl
  split
  · left; rfl
  split
  · right; rfl
  split
  · rename_i s heq
    split at heq
    · exact absurd heq (by simp)
    split at heq
    · cases heq; left; rfl
    split at heq
    · cases heq; right; rfl
    exact absurd heq (by simp)
  · cases entropy
    · right; rfl
    · left; rfl

/-- C1 witness: the amended theorem applied to a concrete all-neutral
report whose protected reads succeed. -/
theorem C1_witness :
    coerce_to_buy_sell
      { summary := Except.ok none, moving_averages := Except.ok none,
        oscillators := Except.ok none, compute := Except.ok [] } true
      = Except.ok "BUY" ∨
    coerce_to_buy_sell
      { summary := Except.ok none, moving_averages := Except.ok none,
        oscillators := Except.ok none, compute := Except.ok [] } true
      = Except.ok "SELL" :=
  C1_amended _ true none none rfl rfl

/-- C3: the coercion cascade respects strict priority order. If the
overall recommendation field reads as BUY or STRONG_BUY (resp. SELL or
STRONG_SELL) the result is BUY (resp. SELL) regardless of every other
field; and when the overall read is inconclusive, the trend-following
sub-recommendation decides before the oscillator one: a SELL-side
trend recommendation yields SELL whatever the oscillator field holds. -/
theorem C3_cascade_priority (a : AnalysisReport) (entropy : Bool) :
    (∀ s, a.summary = Except.ok (some s) →
      (py_upper s = "BUY" ∨ py_upper s = "STRONG_BUY") →
      coerce_to_buy_sell a entropy = Except.ok "BUY") ∧
    (∀ s, a.summary = Except.ok (some s) →
      (py_upper s = "SELL" ∨ py_upper s = "STRONG_SELL") →
      coerce_to_buy_sell a entropy = Except.ok "SELL") ∧
    (∀ t, summary_string a ≠ "BUY" → summary_string a ≠ "STRONG_BUY" →
      summary_string a ≠ "SELL" → summary_string a ≠ "STRONG_SELL" →
      a.moving_averages = Except.ok (some t) →
      (py_upper t = "SELL" ∨ py_upper t = "STRONG_SELL") →
      coerce_to_buy_sell a entropy = Except.ok "SELL") := by
  refine ⟨fun s hs h => ?_, fun s hs h => ?_, fun t h1 h2 h3 h4 hm h => ?_⟩
  · rcases h with h | h <;>
      simp [coerce_to_buy_sell, summary_string, hs, rec_string, h]
  · rcases h with h | h <;>
      simp [coerce_to_buy_sell, summary_string, hs, rec_string, h]
  · rcases h with h | h <;>
      simp [coerce_to_buy_sell, hm, rec_string, h, h1, h2, h3, h4]

/-- C3 witness: overall STRONG_BUY with SELL sub-recommendations gives
BUY; overall NEUTRAL with trend STRONG_SELL and oscillator BUY gives
SELL. -/
theorem C3_witness :
    coerce_to_buy_sell
      { summary := Except.ok (some "STRONG_BUY"),
        moving_averages := Except.ok (some "SELL"),
        oscillators := Except.ok (some "SELL"), compute := Except.ok [] } false
      = Except.ok "BUY" ∧
    coerce_to_buy_sell
      { summary := Except.ok (some "NEUTRAL"),
        moving_averages := Except.ok (some "STRONG_SELL"),
        oscillators := Except.ok (some "BUY"), compute := Except.ok [] } false
      = Except.ok "SELL" :=
  ⟨(C3_cascade_priority _ false).1 "STRONG_BUY" rfl (Or.inr rfl),
   (C3_cascade_priority _ false).2.2 "STRONG_SELL"
     (by decide) (by decide) (by decide) (by decide) rfl (Or.inr rfl)⟩

/-- C4: when the overall, trend-following and oscillator recommendation
reads are all inconclusive (none of BUY / STRONG_BUY / SELL /
STRONG_SELL after normalisation), the per-indicator votes of the
trend-following group decide: strictly more votes starting with "BUY"
than "SELL" (case-insensitively) gives BUY, and conversely gives SELL. -/
theorem C4_vote_tally (a : AnalysisReport) (entropy : Bool)
    (mo oo : Option String) (votes : List String)
    (hma : a.moving_averages = Except.ok mo)
    (hosc : a.oscillators = Except.ok oo)
    (hc : a.compute = Except.ok votes)
    (hs : summary_string a ≠ "BUY" ∧ summary_string a ≠ "STRONG_BUY" ∧
          summary_string a ≠ "SELL" ∧ summary_string a ≠ "STRONG_SELL")
    (hm : rec_string mo ≠ "BUY" ∧ rec_string mo ≠ "STRONG_BUY" ∧
          rec_string mo ≠ "SELL" ∧ rec_string mo ≠ "STRONG_SELL")
    (ho : rec_string oo ≠ "BUY" ∧ rec_string oo ≠ "STRONG_BUY" ∧
          rec_string oo ≠ "SELL" ∧ rec_string oo ≠ "STRONG_SELL") :
    (buy_cnt votes > sell_cnt votes →
      coerce_to_buy_sell a entropy = Except.ok "BUY") ∧
    (sell_cnt votes > buy_cnt votes →
      coerce_to_buy_sell a entropy = Except.ok "SELL") := by
  obtain ⟨hs1, hs2, hs3, hs4⟩ := hs
  obtain ⟨hm1, hm2, hm3, hm4⟩ := hm
  obtain ⟨ho1, ho2, ho3, ho4⟩ := ho
  constructor
  · intro hgt
    simp [coerce_to_buy_sell, hma, hosc, hc, hs1, hs2, hs3, hs4,
      hm1, hm2, hm3, hm4, ho1, ho2, ho3, ho4, hgt]
  · intro hgt
    simp [coerce_to_buy_sell, hma, hosc, hc, hs1, hs2, hs3, hs4,
      hm1, hm2, hm3, hm4, ho1, ho2, ho3, ho4, hgt,
      Nat.not_lt.mpr (Nat.le_of_lt hgt)]

/-- C4 witness: an all-neutral report with four BUY votes against two
SELL votes (mixed case) coerces to BUY. -/
theorem C4_witness :
    coerce_to_buy_sell
      { summary := Except.ok (some "NEUTRAL"),
        moving_averages := Except.ok (some "NEUTRAL"),
        oscillators := Except.ok none,
        compute := Except.ok ["BUY", "Buy", "buy", "BUY", "SELL", "sell"] } false
      = Except.ok "BUY" :=
  (C4_vote_tally _ false (some "NEUTRAL") none
      ["BUY", "Buy", "buy", "BUY", "SELL", "sell"] rfl rfl rfl
      ⟨by decide, by decide, by decide, by decide⟩
      ⟨by decide, by decide, by decide, by decide⟩
      ⟨by decide, by decide, by decide, by decide⟩).1 (by decide)

/-- C2: the claim asserts that a timeframe outside the validity set
matching the session's OTC flag — e.g. "5s" for a non-OTC instrument —
is rejected before any analysis call. This is false: the handler only
checks membership in the union of both sets, so "5s" for the non-OTC
session of user 1 proceeds to invoke the analysis adapter. -/
theorem C2_counterexample :
    (timeframe_chosen storeEurUsd 1 "5s" false).1
      = TfOutcome.analysisRequested "EUR/USD" "5s" false := by
  decide

/-- C2 (amended): timeframe labels are validated only against the UNION
of the two validity sets: any label outside
`TIMEFRAMES_FOREX ++ TIMEFRAMES_OTC` is rejected without invoking the
analysis adapter and without touching the store. The handler does not
re-check the label against the set matching the session's OTC flag, so
an OTC-only label such as "5s" is accepted even for a non-OTC session. -/
theorem C2_amended (store : SessionStore) (uid : Nat) (tf : String) (mc : Bool)
    (h : tf ∉ TIMEFRAMES_FOREX ++ TIMEFRAMES_OTC) :
    timeframe_chosen store uid tf mc = (TfOutcome.ignored, store) := by
  simp [timeframe_chosen, h]

/-- C2 witness: the unknown label "2h" is silently ignored. -/
theorem C2_witness :
    timeframe_chosen emptyStore 0 "2h" false = (TfOutcome.ignored, emptyStore) :=
  C2_amended emptyStore 0 "2h" false (by decide)

/-- C5: the claim (like the source docstring, which announces closure on
weeknights from 22:45 until 02:00) asserts the market is reported closed
at Tuesday 23:00 Moscow time. The implemented test
`(hour == 22 and minute >= 45) or (0 <= hour < 2)` skips hour 23
entirely, so `is_market_closed` reports the market OPEN at Tuesday 23:00
(weekday 1, hour 23, minute 0) — the code contradicts its own docstring
there. Every other boundary of the claim matches the code: weekends are
closed all day, 22:45 and 01:30 are closed, 22:44 and 02:00 are open. -/
theorem C5_market_clock_eval :
    is_market_closed 1 23 0 = false ∧
    is_market_closed 5 10 0 = true ∧
    is_market_closed 6 10 0 = true ∧
    is_market_closed 1 22 45 = true ∧
    is_market_closed 2 1 30 = true ∧
    is_market_closed 1 22 44 = false ∧
    is_market_closed 2 2 0 = false := by
  decide

/-- C6: a session holding an OTC instrument never reaches the
market-closed outcome: even when the market clock reports closed
(`mc` arbitrary, in particular `true`), a valid timeframe choice for an
OTC session proceeds to invoke the analysis adapter. -/
theorem C6_otc_bypasses_market_gate (store : SessionStore) (uid : Nat)
    (tf : String) (s : UserSession) (mc : Bool)
    (hses : store uid = some s) (hotc : s.otc = true)
    (htf : tf ∈ TIMEFRAMES_FOREX ++ TIMEFRAMES_OTC) :
    timeframe_chosen store uid tf mc
      = (TfOutcome.analysisRequested s.pair tf s.otc, store) := by
  simp [timeframe_chosen, htf, hses, hotc]

/-- C6 witness: with an always-closed clock, user 2's OTC session still
gets an analysis request for its pair. -/
theorem C6_witness :
    timeframe_chosen storeOtc 2 "5s" true
      = (TfOutcome.analysisRequested "EUR/USD OTC" "5s" true, storeOtc) :=
  C6_otc_bypasses_market_gate storeOtc 2 "5s" ⟨"EUR/USD OTC", true⟩ true
    rfl rfl (by decide)

/-- C7: a recognized timeframe label chosen by a user with no session
entry yields the no-active-selection outcome, does not reach the
analysis adapter, and leaves the store unchanged — in particular the
user's key stays absent. -/
theorem C7_no_selection (store : SessionStore) (uid : Nat) (tf : String)
    (mc : Bool) (habs : store uid = none)
    (htf : tf ∈ TIMEFRAMES_FOREX ++ TIMEFRAMES_OTC) :
    timeframe_chosen store uid tf mc = (TfOutcome.noSelection, store) ∧
    (timeframe_chosen store uid tf mc).2 uid = none := by
  have h : timeframe_chosen store uid tf mc = (TfOutcome.noSelection, store) := by
    simp [timeframe_chosen, htf, habs]
  exact ⟨h, by rw [h]; exact habs⟩

/-- C7 witness: "1m" chosen by user 5 on an empty store. -/
theorem C7_witness :
    timeframe_chosen emptyStore 5 "1m" false
      = (TfOutcome.noSelection, emptyStore) ∧
    (timeframe_chosen emptyStore 5 "1m" false).2 5 = none :=
  C7_no_selection emptyStore 5 "1m" false rfl (by decide)

/-- C8: instrument selection is last-write-wins. After selecting any A
and then a catalog instrument B, the user's session holds exactly B with
B's OTC flag (the standard catalog is consulted first, as in the
source), and a subsequent valid timeframe choice produces an analysis
request for B under B's flag. -/
theorem C8_last_write_wins (store : SessionStore) (uid : Nat) (A B : String)
    (botc : Bool) (tf : String) (mc : Bool)
    (hB : (B ∈ FOREX_PAIRS ∧ botc = false) ∨
          (B ∉ FOREX_PAIRS ∧ B ∈ OTC_PAIRS ∧ botc = true))
    (htf : tf ∈ TIMEFRAMES_FOREX ++ TIMEFRAMES_OTC)
    (hgate : botc = true ∨ mc = false) :
    ((pair_chosen (pair_chosen store uid A).2 uid B).2) uid = some ⟨B, botc⟩ ∧
    (timeframe_chosen ((pair_chosen (pair_chosen store uid A).2 uid B).2)
        uid tf mc).1
      = TfOutcome.analysisRequested B tf botc := by
  have hw : ((pair_chosen (pair_chosen store uid A).2 uid B).2) uid
      = some ⟨B, botc⟩ := by
    rcases hB with ⟨hBf, hbo⟩ | ⟨hnB, hBo, hbo⟩
    · subst hbo; simp [pair_chosen, hBf]
    · subst hbo; simp [pair_chosen, hnB, hBo]
  refine ⟨hw, ?_⟩
  rcases hgate with h | h <;> simp [timeframe_chosen, htf, hw, h]

/-- C8 witness: user 7 selects "EUR/USD" then "GBP/USD OTC"; the session
holds the OTC pair, and choosing "5s" under a closed market still yields
an analysis request for "GBP/USD OTC". -/
theorem C8_witness :
    ((pair_chosen (pair_chosen emptyStore 7 "EUR/USD").2 7 "GBP/USD OTC").2) 7
      = some ⟨"GBP/USD OTC", true⟩ ∧
    (timeframe_chosen
        ((pair_chosen (pair_chosen emptyStore 7 "EUR/USD").2 7 "GBP/USD OTC").2)
        7 "5s" true).1
      = TfOutcome.analysisRequested "GBP/USD OTC" "5s" true :=
  C8_last_write_wins emptyStore 7 "EUR/USD" "GBP/USD OTC" true "5s" true
    (Or.inr ⟨by decide, by decide, rfl⟩) (by decide) (Or.inl rfl)

/-- C9: a selection text in neither catalog is a no-op: no session
mutation for any user and no reply (the ignored outcome). -/
theorem C9_invalid_selection_noop (store : SessionStore) (uid : Nat)
    (text : String) (h1 : text ∉ FOREX_PAIRS) (h2 : text ∉ OTC_PAIRS) :
    pair_chosen store uid text = (PairOutcome.ignored, store) := by
  simp [pair_chosen, h1, h2]

/-- C9 witness: "BTC/USD" is in neither catalog and is ignored. -/
theorem C9_witness :
    pair_chosen emptyStore 3 "BTC/USD" = (PairOutcome.ignored, emptyStore) :=
  C9_invalid_selection_noop emptyStore 3 "BTC/USD" (by decide) (by decide)

/-- C10: a timeframe string that is not a key of `TF_MAP` silently falls
back to the 5-minute analysis interval, and the sub-minute keys "5s",
"10s" and "30s" all map to the 1-minute interval. -/
theorem C10_interval_default (pair tf : String) (is_otc : Bool)
    (h : List.lookup tf TF_MAP = none) :
    (analyze_with_tradingview_request pair tf is_otc).interval
      = Interval.fiveMinutes ∧
    (analyze_with_tradingview_request pair "5s" is_otc).interval
      = Interval.oneMinute ∧
    (analyze_with_tradingview_request pair "10s" is_otc).interval
      = Interval.oneMinute ∧
    (analyze_with_tradingview_request pair "30s" is_otc).interval
      = Interval.oneMinute := by
  refine ⟨?_, rfl, rfl, rfl⟩
  simp [analyze_with_tradingview_request, h]

/-- C10 witness: the unknown label "2h" gets the 5-minute interval. -/
theorem C10_witness :
    (analyze_with_tradingview_request "EUR/USD" "2h" false).interval
      = Interval.fiveMinutes ∧
    (analyze_with_tradingview_request "EUR/USD" "5s" false).interval
      = Interval.oneMinute ∧
    (analyze_with_tradingview_request "EUR/USD" "10s" false).interval
      = Interval.oneMinute ∧
    (analyze_with_tradingview_request "EUR/USD" "30s" false).interval
      = Interval.oneMinute :=
  C10_interval_default "EUR/USD" "2h" false (by decide)

end ForexSignalBot
